import Mathlib

/-!
Verification of the `python-api` service (`src/apps/python-api/src/main.py`).

The service registers two HTTP handlers on a FastAPI routing table:
  * `GET /`       → `root`:   logs an informational line, checks existence of
                    `/vault/secrets/config`, resolves the machine hostname and
                    returns a JSON object with four fields;
  * `GET /health` → `health`: returns the constant JSON object
                    `{"status": "healthy"}`.

We embed the handlers shallowly.  The external world a handler can observe is
a `WorldState`: a filesystem (modelled by the result of the underlying `stat`
call for each path, plus file contents, which the code never reads) and the
result of hostname resolution (`socket.gethostname()`, which may in principle
fail, modelled as `Except`).  A handler returns the trace of observable
effects it performs (log lines and external-state observations, in program
order) together with either a response or a propagated fault.
-/

/-- JSON values, restricted to the shapes the service constructs. -/
inductive Json where
  | str (s : String)
  | bool (b : Bool)
  | obj (fields : List (String × Json))

/-- Association lookup in a JSON object field list (first match wins). -/
def lookupField : List (String × Json) → String → Option Json
  | [], _ => none
  | (k, v) :: rest, key => if k = key then some v else lookupField rest key

/-- Field access on a JSON value; `none` on non-objects or missing keys. -/
def Json.getField : Json → String → Option Json
  | Json.obj fields, key => lookupField fields key
  | _, _ => none

/-- The keys of a JSON object, in order; `[]` on non-objects. -/
def Json.keys : Json → List String
  | Json.obj fields => fields.map Prod.fst
  | _ => []

/-- An HTTP response: status code and JSON body. -/
structure Response where
  status : Nat
  body : Json

/-- Severity levels of the Python `logging` module used by the service. -/
inductive LogLevel where
  | debug
  | info
  | warning
  | error
deriving DecidableEq

/-- Observable effects a handler can perform, in program order:
a log line, a filesystem existence check, a hostname resolution. -/
inductive Event where
  | log (level : LogLevel) (msg : String)
  | fsCheck (path : String)
  | resolveHostname
deriving DecidableEq

/-- `true` exactly on log events. -/
def Event.isLog : Event → Bool
  | Event.log _ _ => true
  | _ => false

/-- The filesystem as the handler can observe it: for each path, the result
of the underlying `stat` call (`ok` when the path exists and is reachable,
`error` with an OS error string otherwise), and file contents.  The service
never reads contents; they are carried to state that fact. -/
structure FileSystem where
  stat : String → Except String Unit
  contents : String → Option String

/-- `os.path.exists`: `True` iff the underlying `stat` succeeds; every OS
error (including plain non-existence) yields `False`, never an exception. -/
def os_path_exists (fs : FileSystem) (p : String) : Bool :=
  match fs.stat p with
  | Except.ok _ => true
  | Except.error _ => false

/-- External state a request is evaluated against: the filesystem and the
result of `socket.gethostname()` (hostname string, or an OS error). -/
structure WorldState where
  fs : FileSystem
  hostname : Except String String

/-- The well-known secret path checked by the root handler. -/
def vaultPath : String := "/vault/secrets/config"

/-- The effect trace of the root handler: `logger.info("Root endpoint
called")`, then `os.path.exists("/vault/secrets/config")`, then
`socket.gethostname()` (evaluated while building the response dict). -/
def rootTrace : List Event :=
  [Event.log LogLevel.info "Root endpoint called",
   Event.fsCheck vaultPath,
   Event.resolveHostname]

/-- The response dict built by the root handler once `socket.gethostname()`
has returned `h`. -/
def rootResponse (fs : FileSystem) (h : String) : Response :=
  { status := 200,
    body := Json.obj
      [("service", Json.str "python-api"),
       ("message", Json.str "Hello from Python!"),
       ("host", Json.str h),
       ("vault_injected", Json.bool (os_path_exists fs vaultPath))] }

/-- The `root` handler (`GET /`).  It logs, computes
`vault_injected = os.path.exists("/vault/secrets/config")`, and returns the
response dict; a failure of `socket.gethostname()` propagates unhandled. -/
def root (st : WorldState) : List Event × Except String Response :=
  (rootTrace,
   match st.hostname with
   | Except.error e => Except.error e
   | Except.ok h => Except.ok (rootResponse st.fs h))

/-- The `health` handler (`GET /health`): performs no effects and returns
the constant object `{"status": "healthy"}`. -/
def health (_st : WorldState) : List Event × Except String Response :=
  ([], Except.ok { status := 200, body := Json.obj [("status", Json.str "healthy")] })

/-! Concrete states used by witnesses and counterexamples. -/

/-- A filesystem on which every `stat` fails (no path exists). -/
def emptyFS : FileSystem :=
  { stat := fun _ => Except.error "ENOENT", contents := fun _ => none }

/-- A filesystem on which exactly the vault path exists. -/
def vaultFS : FileSystem :=
  { stat := fun p => if p = vaultPath then Except.ok () else Except.error "ENOENT",
    contents := fun _ => none }

/-- World: empty filesystem, hostname resolves to `"pod-1"`. -/
def stA : WorldState := { fs := emptyFS, hostname := Except.ok "pod-1" }

/-- World: vault path present, hostname resolves to `"pod-1"`. -/
def stB : WorldState := { fs := vaultFS, hostname := Except.ok "pod-1" }

/-- World: hostname resolution fails with `"EFAIL"`. -/
def stBadHost : WorldState := { fs := emptyFS, hostname := Except.error "EFAIL" }

/-- World: hostname resolves to the empty string. -/
def stEmptyHost : WorldState := { fs := emptyFS, hostname := Except.ok "" }

/-! ## Claims -/

/-- C1: For every request to the root handler (with hostname resolution
returning `h`), the `vault_injected` field of the response equals the result
of the filesystem existence check of `/vault/secrets/config`; and only
presence, never contents, is consulted: replacing the contents component of
the filesystem leaves the handler result unchanged. -/
theorem root_vault_injected_eq_exists (st : WorldState) (h : String)
    (hh : st.hostname = Except.ok h) :
    ∃ r, (root st).2 = Except.ok r ∧
      r.body.getField "vault_injected" = some (Json.bool (os_path_exists st.fs vaultPath)) ∧
      ∀ c : String → Option String,
        root { st with fs := { st.fs with contents := c } } = root st := by
  refine ⟨rootResponse st.fs h, ?_, rfl, fun c => ?_⟩
  · unfold root
    rw [hh]
  · unfold root rootResponse os_path_exists
    rfl

/-- C1 witness: on the empty filesystem `vault_injected` is `false`, and on
the filesystem where the vault path exists it is `true`. -/
theorem root_vault_injected_eq_exists_witness :
    (∃ r, (root stA).2 = Except.ok r ∧
      r.body.getField "vault_injected" = some (Json.bool (os_path_exists stA.fs vaultPath)) ∧
      ∀ c : String → Option String,
        root { stA with fs := { stA.fs with contents := c } } = root stA) ∧
    (∃ r, (root stB).2 = Except.ok r ∧
      r.body.getField "vault_injected" = some (Json.bool (os_path_exists stB.fs vaultPath)) ∧
      ∀ c : String → Option String,
        root { stB with fs := { stB.fs with contents := c } } = root stB) ∧
    os_path_exists stA.fs vaultPath = false ∧ os_path_exists stB.fs vaultPath = true :=
  ⟨root_vault_injected_eq_exists stA "pod-1" rfl,
   root_vault_injected_eq_exists stB "pod-1" rfl, rfl, rfl⟩

/-- C2: for every request, the health handler returns status 200 with body
exactly the JSON object with the single key `status` mapped to `"healthy"`. -/
theorem health_exact (st : WorldState) :
    (health st).2 =
      Except.ok { status := 200, body := Json.obj [("status", Json.str "healthy")] } :=
  rfl

/-- C3: for every request to `/` (with hostname resolution succeeding), the
response status is 200 and the body contains keys `service`, `message`,
`host`, `vault_injected`, with `service = "python-api"` and
`message = "Hello from Python!"`. -/
theorem root_ok_response (st : WorldState) (h : String)
    (hh : st.hostname = Except.ok h) :
    ∃ r, (root st).2 = Except.ok r ∧ r.status = 200 ∧
      r.body.getField "service" = some (Json.str "python-api") ∧
      r.body.getField "message" = some (Json.str "Hello from Python!") ∧
      (r.body.getField "host").isSome ∧
      (r.body.getField "vault_injected").isSome := by
  refine ⟨rootResponse st.fs h, ?_, rfl, rfl, rfl, rfl, rfl⟩
  unfold root
  rw [hh]

/-- C3 witness at a concrete world. -/
theorem root_ok_response_witness :
    ∃ r, (root stA).2 = Except.ok r ∧ r.status = 200 ∧
      r.body.getField "service" = some (Json.str "python-api") ∧
      r.body.getField "message" = some (Json.str "Hello from Python!") ∧
      (r.body.getField "host").isSome ∧
      (r.body.getField "vault_injected").isSome :=
  root_ok_response stA "pod-1" rfl

/-- C4: handling a request is deterministic in the observed external state:
two worlds agreeing on the existence of the vault path and on the resolved
hostname produce identical results from `root`, and any two worlds produce
identical results from `health`. -/
theorem handlers_deterministic (st1 st2 : WorldState)
    (hfs : os_path_exists st1.fs vaultPath = os_path_exists st2.fs vaultPath)
    (hhn : st1.hostname = st2.hostname) :
    root st1 = root st2 ∧ health st1 = health st2 := by
  refine ⟨?_, rfl⟩
  cases hst : st2.hostname with
  | error e => simp [root, hhn, hst]
  | ok h => simp [root, rootResponse, hhn, hst, hfs]

/-- C4 witness: two structurally different worlds (different contents
functions) agreeing on vault-path existence and hostname. -/
theorem handlers_deterministic_witness :
    root stA = root { fs := { stat := fun _ => Except.error "EACCES",
                              contents := fun p => some p },
                      hostname := Except.ok "pod-1" } ∧
    health stA = health { fs := { stat := fun _ => Except.error "EACCES",
                                  contents := fun p => some p },
                          hostname := Except.ok "pod-1" } :=
  handlers_deterministic stA _ rfl rfl

/-- C5: the health handler performs no effects (empty trace) and its result
does not depend on the external state: any two worlds give the same result. -/
theorem health_pure (st1 st2 : WorldState) :
    (health st1).1 = [] ∧ health st1 = health st2 :=
  ⟨rfl, rfl⟩

/-- C6 counterexample: the claim "the `host` field is a non-empty string
equal to the resolved hostname" is false as stated: when hostname
resolution returns the empty string, the handler places the empty string in
the `host` field. -/
theorem root_host_nonempty_refuted :
    ¬ ∀ (st : WorldState) (h : String) (r : Response),
        st.hostname = Except.ok h → (root st).2 = Except.ok r →
        ∃ s, r.body.getField "host" = some (Json.str s) ∧ s ≠ "" := by
  intro hcl
  obtain ⟨s, hs, hne⟩ := hcl stEmptyHost "" (rootResponse emptyFS "") rfl rfl
  have h2 : (some (Json.str "") : Option Json) = some (Json.str s) := by
    rw [← hs]
    rfl
  have h1 : Json.str "" = Json.str s := Option.some.inj h2
  cases h1
  exact hne rfl

/-- C6 (amended): the `host` field of the root response equals exactly the
string returned by hostname resolution; it is non-empty whenever the
resolved hostname is non-empty. -/
theorem root_host_eq_hostname (st : WorldState) (h : String)
    (hh : st.hostname = Except.ok h) :
    ∃ r, (root st).2 = Except.ok r ∧
      r.body.getField "host" = some (Json.str h) ∧
      (h ≠ "" → ∃ s, r.body.getField "host" = some (Json.str s) ∧ s ≠ "") := by
  refine ⟨rootResponse st.fs h, ?_, rfl, fun hne => ⟨h, rfl, hne⟩⟩
  unfold root
  rw [hh]

/-- C6 witness at a concrete world with a non-empty hostname. -/
theorem root_host_eq_hostname_witness :
    ∃ r, (root stA).2 = Except.ok r ∧
      r.body.getField "host" = some (Json.str "pod-1") ∧
      ("pod-1" ≠ "" → ∃ s, r.body.getField "host" = some (Json.str s) ∧ s ≠ "") :=
  root_host_eq_hostname stA "pod-1" rfl

/-- C7: for every request, the root handler emits exactly one log event, at
informational severity with message `"Root endpoint called"`, and it is the
first event of the trace, before the filesystem check and before hostname
resolution. -/
theorem root_logs_once_first (st : WorldState) :
    ((root st).1.countP Event.isLog = 1) ∧
    (root st).1 =
      Event.log LogLevel.info "Root endpoint called" ::
        [Event.fsCheck vaultPath, Event.resolveHostname] :=
  ⟨rfl, rfl⟩

/-- C8: the root handler propagates a fault if and only if hostname
resolution fails, with the same error; whenever hostname resolution
succeeds the handler produces a response. -/
theorem root_error_iff_hostname_error (st : WorldState) :
    (∀ e, (root st).2 = Except.error e ↔ st.hostname = Except.error e) ∧
    (∀ h, st.hostname = Except.ok h → ∃ r, (root st).2 = Except.ok r) := by
  constructor
  · intro e
    unfold root
    cases hst : st.hostname with
    | error e2 => simp
    | ok h => simp
  · intro h hh
    refine ⟨rootResponse st.fs h, ?_⟩
    unfold root
    rw [hh]

/-- C8 witness: at a world whose hostname resolution fails with `"EFAIL"`,
the handler propagates exactly that error; at a world whose resolution
succeeds it returns a response. -/
theorem root_error_iff_hostname_error_witness :
    (root stBadHost).2 = Except.error "EFAIL" ∧ ∃ r, (root stA).2 = Except.ok r :=
  ⟨((root_error_iff_hostname_error stBadHost).1 "EFAIL").mpr rfl,
   (root_error_iff_hostname_error stA).2 "pod-1" rfl⟩

/-- C9: the filesystem existence check is total and never raises: it yields
a boolean on every filesystem, any `stat` failure (non-existence included)
yields `false` rather than an error, and the root handler has no error
branch arising from the filesystem check: whenever hostname resolution
succeeds the handler returns a response, whatever the filesystem. -/
theorem fs_check_total_no_error (fs : FileSystem) (p : String) :
    (os_path_exists fs p = true ∨ os_path_exists fs p = false) ∧
    (∀ e, fs.stat p = Except.error e → os_path_exists fs p = false) ∧
    (∀ st : WorldState, ∀ h, st.hostname = Except.ok h →
      ∃ r, (root st).2 = Except.ok r) := by
  refine ⟨?_, fun e he => ?_, fun st h hh => ⟨rootResponse st.fs h, ?_⟩⟩
  · cases hb : os_path_exists fs p with
    | true => exact Or.inl rfl
    | false => exact Or.inr rfl
  · unfold os_path_exists
    rw [he]
  · unfold root
    rw [hh]

/-- C9 witness: on the empty filesystem the check yields `false`, and the
root handler still returns a response there. -/
theorem fs_check_total_no_error_witness :
    os_path_exists emptyFS vaultPath = false ∧ ∃ r, (root stA).2 = Except.ok r :=
  ⟨(fs_check_total_no_error emptyFS vaultPath).2.1 "ENOENT" rfl,
   (fs_check_total_no_error emptyFS vaultPath).2.2 stA "pod-1" rfl⟩

/-- C10: for every request to the root handler (with hostname resolution
returning `h`), the response body is an object with exactly the four keys
`service`, `message`, `host`, `vault_injected`, in that order and no
others, the first three mapped to strings and the last to a boolean. -/
theorem root_body_shape (st : WorldState) (h : String)
    (hh : st.hostname = Except.ok h) :
    ∃ r, (root st).2 = Except.ok r ∧
      r.body.keys = ["service", "message", "host", "vault_injected"] ∧
      (∃ s1, r.body.getField "service" = some (Json.str s1)) ∧
      (∃ s2, r.body.getField "message" = some (Json.str s2)) ∧
      (∃ s3, r.body.getField "host" = some (Json.str s3)) ∧
      (∃ b, r.body.getField "vault_injected" = some (Json.bool b)) := by
  refine ⟨rootResponse st.fs h, ?_, rfl, ⟨_, rfl⟩, ⟨_, rfl⟩, ⟨_, rfl⟩, ⟨_, rfl⟩⟩
  unfold root
  rw [hh]

/-- C10 witness at a concrete world. -/
theorem root_body_shape_witness :
    ∃ r, (root stA).2 = Except.ok r ∧
      r.body.keys = ["service", "message", "host", "vault_injected"] ∧
      (∃ s1, r.body.getField "service" = some (Json.str s1)) ∧
      (∃ s2, r.body.getField "message" = some (Json.str s2)) ∧
      (∃ s3, r.body.getField "host" = some (Json.str s3)) ∧
      (∃ b, r.body.getField "vault_injected" = some (Json.bool b)) :=
  root_body_shape stA "pod-1" rfl
